import Mathlib

/-
Verification of the collection resource client of the replicate-rust library
(src/collection.rs) against its natural-language specification.

The client is embedded shallowly: the HTTP transport becomes an oracle function
from requests to outcomes, and the state threaded through a call (the receiver
plus a log of every request handed to the transport) is passed explicitly, so
that one round trip appends exactly one entry to the log.  Machine code that is
part of the repository but absent from src/ (config.rs, errors.rs,
api_definitions.rs, and the serde_json decoding the structs rely on) is
modelled from the spec, and each such definition says so in its doc comment.
-/

set_option autoImplicit false

namespace Replicate

/-- Modelled from the spec: the Config struct from config.rs (not present under
src/) holds the base url, the auth token and the user agent; the field names
base_url, auth and user_agent are the ones collection.rs reads. -/
structure Config where
  base_url : String
  auth : String
  user_agent : String
  deriving Repr, DecidableEq

/-- The Collection resource client (collection.rs lines 26-30): wraps a Config
in its field named parent. -/
structure Collection where
  parent : Config
  deriving Repr, DecidableEq

/-- Create a new Collection struct (collection.rs lines 33-36). -/
def Collection.new (rep : Config) : Collection :=
  ⟨rep⟩

/-- An HTTP request as assembled by the client: method, url and header list. -/
structure HttpRequest where
  method : String
  url : String
  headers : List (String × String)
  deriving Repr, DecidableEq

/-- An HTTP response as seen by the client.  Reading the body text may itself
fail (reqwest response.text returns a Result), so the text field is an Except
of a transport message to the body string. -/
structure HttpResponse where
  status : Nat
  text : Except String String
  deriving Repr

/-- Modelled from the spec: the ReplicateError enum from errors.rs (not present
under src/): a tagged union over transport failure (ReqwestError, carrying the
underlying message), non-success HTTP status (ResponseError, carrying the raw
body text verbatim), and JSON decode failure (SerdeError, carrying the parse
failure). -/
inductive ReplicateError where
  | ReqwestError (msg : String)
  | ResponseError (body : String)
  | SerdeError (msg : String)
  deriving Repr, DecidableEq

/-- Modelled from the spec: JSON values as handled by serde_json (an external
crate; api_definitions.rs is not present under src/). -/
inductive Json where
  | null : Json
  | bool (b : Bool) : Json
  | num (n : Int) : Json
  | str (s : String) : Json
  | arr (xs : List Json) : Json
  | obj (fields : List (String × Json)) : Json
  deriving Repr

/-- Whitespace as skipped by a JSON reader. -/
def isWs (c : Char) : Bool :=
  c = ' ' || c = '\n' || c = '\t' || c = '\r'

/-- Drop leading JSON whitespace. -/
def skipWs : List Char → List Char
  | [] => []
  | c :: cs => if isWs c then skipWs cs else c :: cs

/-- Modelled from the spec: the body of a JSON string literal, after the
opening quote; returns the decoded characters and the rest of the input. -/
def parseStringChars : List Char → Option (List Char × List Char)
  | [] => none
  | c :: cs =>
    if c = '\"' then some ([], cs)
    else if c = '\\' then
      match cs with
      | [] => none
      | e :: cs2 =>
        let esc : Option Char :=
          if e = '\"' then some '\"'
          else if e = '\\' then some '\\'
          else if e = '/' then some '/'
          else if e = 'n' then some '\n'
          else if e = 't' then some '\t'
          else if e = 'r' then some '\r'
          else none
        match esc with
        | none => none
        | some ch =>
          match parseStringChars cs2 with
          | none => none
          | some (s, rest) => some (ch :: s, rest)
    else
      match parseStringChars cs with
      | none => none
      | some (s, rest) => some (c :: s, rest)

/-- Accumulate decimal digits into a natural number. -/
def parseDigitsAux (acc : Nat) : List Char → Nat × List Char
  | [] => (acc, [])
  | c :: cs =>
    if c.isDigit then parseDigitsAux (acc * 10 + (c.toNat - 48)) cs
    else (acc, c :: cs)

/-- Modelled from the spec: an integer JSON number (sign and digits). -/
def parseNum : List Char → Option (Int × List Char)
  | [] => none
  | c :: cs =>
    if c = '-' then
      match cs with
      | [] => none
      | d :: _ =>
        if d.isDigit then
          match parseDigitsAux 0 cs with
          | (n, rest) => some (-(n : Int), rest)
        else none
    else if c.isDigit then
      match parseDigitsAux 0 (c :: cs) with
      | (n, rest) => some ((n : Int), rest)
    else none

/-- Recursive-descent modes: a single value, the items of an array after the
opening bracket, or the fields of an object after the opening brace. -/
inductive PMode where
  | value
  | arrayRest
  | objRest

/-- Output of one descent step: a value, a list of values, or a field list. -/
inductive POut where
  | v (j : Json)
  | vs (xs : List Json)
  | fs (fields : List (String × Json))

/-- Modelled from the spec: one fuel-indexed step of the JSON reader.  The fuel
only bounds the nesting depth; parseJson below supplies enough for any input. -/
def parseStep : Nat → PMode → List Char → Option (POut × List Char)
  | 0, _, _ => none
  | Nat.succ fuel, PMode.value, cs =>
    match skipWs cs with
    | [] => none
    | c :: rest =>
      if c = '\"' then
        match parseStringChars rest with
        | some (s, r) => some (.v (.str (String.mk s)), r)
        | none => none
      else if c = 'n' then
        match rest with
        | 'u' :: 'l' :: 'l' :: r => some (.v .null, r)
        | _ => none
      else if c = 't' then
        match rest with
        | 'r' :: 'u' :: 'e' :: r => some (.v (.bool true), r)
        | _ => none
      else if c = 'f' then
        match rest with
        | 'a' :: 'l' :: 's' :: 'e' :: r => some (.v (.bool false), r)
        | _ => none
      else if c = '[' then
        match parseStep fuel PMode.arrayRest rest with
        | some (.vs xs, r) => some (.v (.arr xs), r)
        | _ => none
      else if c = '\x7b' then
        match parseStep fuel PMode.objRest rest with
        | some (.fs fs, r) => some (.v (.obj fs), r)
        | _ => none
      else
        match parseNum (c :: rest) with
        | some (n, r) => some (.v (.num n), r)
        | none => none
  | Nat.succ fuel, PMode.arrayRest, cs =>
    match skipWs cs with
    | ']' :: r => some (.vs [], r)
    | cs2 =>
      match parseStep fuel PMode.value cs2 with
      | some (.v v, r) =>
        (match skipWs r with
          | ',' :: r2 =>
            match parseStep fuel PMode.arrayRest r2 with
            | some (.vs xs, r3) => some (.vs (v :: xs), r3)
            | _ => none
          | ']' :: r2 => some (.vs [v], r2)
          | _ => none)
      | _ => none
  | Nat.succ fuel, PMode.objRest, cs =>
    match skipWs cs with
    | '\x7d' :: r => some (.fs [], r)
    | '\"' :: r =>
      (match parseStringChars r with
        | none => none
        | some (k, r2) =>
          match skipWs r2 with
          | ':' :: r3 =>
            (match parseStep fuel PMode.value r3 with
              | some (.v v, r4) =>
                (match skipWs r4 with
                  | ',' :: r5 =>
                    match parseStep fuel PMode.objRest r5 with
                    | some (.fs fs, r6) => some (.fs ((String.mk k, v) :: fs), r6)
                    | _ => none
                  | '\x7d' :: r5 => some (.fs [(String.mk k, v)], r5)
                  | _ => none)
              | _ => none)
          | _ => none)
    | _ => none

/-- Modelled from the spec: serde_json parsing of a whole input string into a
JSON value; trailing garbage and malformed input are rejected. -/
def parseJson (s : String) : Except String Json :=
  match parseStep (s.data.length + 2) PMode.value s.data with
  | none => Except.error "invalid JSON"
  | some (POut.v j, rest) =>
    match skipWs rest with
    | [] => Except.ok j
    | _ => Except.error "trailing characters"
  | some (_, _) => Except.error "invalid JSON"

/-- Look up a field of a JSON object by key; none when absent or not an
object. -/
def Json.getField : Json → String → Option Json
  | .obj fields, key =>
    (fields.find? (fun p => p.fst = key)).map Prod.snd
  | _, _ => none

/-- Modelled from the spec: the GetCollectionModels response struct from
api_definitions.rs (not present under src/): name, slug and description
strings plus the nested models list, mirroring the API JSON fields. -/
structure GetCollectionModels where
  name : String
  slug : String
  description : String
  models : List Json
  deriving Repr

/-- Modelled from the spec: the ListCollectionModels page struct from
api_definitions.rs (not present under src/): a results sequence plus optional
next and previous cursor urls. -/
structure ListCollectionModels where
  results : List Json
  next : Option String
  previous : Option String
  deriving Repr

/-- Modelled from the spec: serde deserialization of GetCollectionModels from
a JSON value; every field must be present with the expected type, no field is
silently defaulted. -/
def decodeGetCollectionModels (j : Json) : Except String GetCollectionModels :=
  match j.getField "name" with
  | some (.str name) =>
    (match j.getField "slug" with
      | some (.str slug) =>
        (match j.getField "description" with
          | some (.str description) =>
            (match j.getField "models" with
              | some (.arr models) => Except.ok ⟨name, slug, description, models⟩
              | _ => Except.error "missing or invalid field models")
          | _ => Except.error "missing or invalid field description")
      | _ => Except.error "missing or invalid field slug")
  | _ => Except.error "missing or invalid field name"

/-- A JSON value that is either null (none) or a string (some). -/
def Json.asOptString : Json → Except String (Option String)
  | .null => Except.ok none
  | .str s => Except.ok (some s)
  | _ => Except.error "expected a string or null"

/-- Modelled from the spec: serde deserialization of ListCollectionModels from
a JSON value: a results array plus next and previous cursors, each null or a
string. -/
def decodeListCollectionModels (j : Json) : Except String ListCollectionModels :=
  match j.getField "results" with
  | some (.arr results) =>
    (match j.getField "next" with
      | some jn =>
        (match jn.asOptString with
          | Except.ok next =>
            (match j.getField "previous" with
              | some jp =>
                (match jp.asOptString with
                  | Except.ok previous => Except.ok ⟨results, next, previous⟩
                  | Except.error e => Except.error e)
              | none => Except.error "missing field previous")
          | Except.error e => Except.error e)
      | none => Except.error "missing field next")
  | _ => Except.error "missing or invalid field results"

/-- Modelled from the spec: serde_json::from_str for GetCollectionModels:
parse the body string and decode the struct. -/
def serdeFromStrGet (s : String) : Except String GetCollectionModels :=
  match parseJson s with
  | Except.error e => Except.error e
  | Except.ok j => decodeGetCollectionModels j

/-- Modelled from the spec: serde_json::from_str for ListCollectionModels:
parse the body string and decode the struct. -/
def serdeFromStrList (s : String) : Except String ListCollectionModels :=
  match parseJson s with
  | Except.error e => Except.error e
  | Except.ok j => decodeListCollectionModels j

/-- Modelled from the spec: reqwest StatusCode::is_success, true exactly for
the success range 200..=299. -/
def statusIsSuccess (status : Nat) : Bool :=
  200 ≤ status && status < 300

/-- The state threaded through a call: the receiver (holding the Config) and
the log of every request handed to the transport, in order. -/
structure World where
  coll : Collection
  log : List HttpRequest
  deriving Repr

/-- The request built by Collection::get (collection.rs lines 56-62): GET on
base_url/collections/slug with the Authorization and User-Agent headers. -/
def Collection.getRequest (self : Collection) (collection_slug : String) : HttpRequest :=
  ⟨"GET", self.parent.base_url ++ "/collections/" ++ collection_slug,
    [("Authorization", "Token " ++ self.parent.auth),
     ("User-Agent", self.parent.user_agent)]⟩

/-- The request built by Collection::list (collection.rs lines 93-96): GET on
base_url/collections with the Authorization and User-Agent headers. -/
def Collection.listRequest (self : Collection) : HttpRequest :=
  ⟨"GET", self.parent.base_url ++ "/collections",
    [("Authorization", "Token " ++ self.parent.auth),
     ("User-Agent", self.parent.user_agent)]⟩

/-- Shallow embedding of Collection::get (collection.rs lines 53-73).  The
oracle stands for the network; sending records the request in the world log.
Status is checked first; a non-success status yields ResponseError on the body
text, a body read failure propagates as the transport error, and on success
the body is decoded, a parse failure yielding SerdeError. -/
def Collection.get (collection_slug : String)
    (oracle : HttpRequest → Except String HttpResponse) (w : World) :
    Except ReplicateError GetCollectionModels × World :=
  let req := Collection.getRequest w.coll collection_slug
  let w1 : World := ⟨w.coll, w.log ++ [req]⟩
  match oracle req with
  | Except.error e => (Except.error (ReplicateError.ReqwestError e), w1)
  | Except.ok response =>
    if !statusIsSuccess response.status then
      match response.text with
      | Except.error e => (Except.error (ReplicateError.ReqwestError e), w1)
      | Except.ok body => (Except.error (ReplicateError.ResponseError body), w1)
    else
      match response.text with
      | Except.error e => (Except.error (ReplicateError.ReqwestError e), w1)
      | Except.ok response_string =>
        match serdeFromStrGet response_string with
        | Except.error e => (Except.error (ReplicateError.SerdeError e), w1)
        | Except.ok response_struct => (Except.ok response_struct, w1)

/-- Shallow embedding of Collection::list (collection.rs lines 90-107), with
the same transport, status, body and decode handling as get. -/
def Collection.list
    (oracle : HttpRequest → Except String HttpResponse) (w : World) :
    Except ReplicateError ListCollectionModels × World :=
  let req := Collection.listRequest w.coll
  let w1 : World := ⟨w.coll, w.log ++ [req]⟩
  match oracle req with
  | Except.error e => (Except.error (ReplicateError.ReqwestError e), w1)
  | Except.ok response =>
    if !statusIsSuccess response.status then
      match response.text with
      | Except.error e => (Except.error (ReplicateError.ReqwestError e), w1)
      | Except.ok body => (Except.error (ReplicateError.ResponseError body), w1)
    else
      match response.text with
      | Except.error e => (Except.error (ReplicateError.ReqwestError e), w1)
      | Except.ok response_string =>
        match serdeFromStrList response_string with
        | Except.error e => (Except.error (ReplicateError.SerdeError e), w1)
        | Except.ok response_struct => (Except.ok response_struct, w1)


/-
Helper lemmas shared by the claim theorems.
-/

/-- The state after Collection::get: the receiver is untouched and exactly the
one built request is appended to the log, whatever the oracle answers. -/
theorem get_world (collection_slug : String)
    (oracle : HttpRequest → Except String HttpResponse) (w : World) :
    (Collection.get collection_slug oracle w).2
      = ⟨w.coll, w.log ++ [Collection.getRequest w.coll collection_slug]⟩ := by
  unfold Collection.get
  dsimp only
  repeat' split
  all_goals rfl

/-- The state after Collection::list: the receiver is untouched and exactly the
one built request is appended to the log, whatever the oracle answers. -/
theorem list_world (oracle : HttpRequest → Except String HttpResponse) (w : World) :
    (Collection.list oracle w).2
      = ⟨w.coll, w.log ++ [Collection.listRequest w.coll]⟩ := by
  unfold Collection.list
  dsimp only
  repeat' split
  all_goals rfl

/-- Inversion for the GetCollectionModels decoder: a successful decode pins
every field of the struct to the corresponding field of the JSON object. -/
theorem decodeGet_inv (j : Json) (s : GetCollectionModels)
    (h : decodeGetCollectionModels j = Except.ok s) :
    j.getField "name" = some (Json.str s.name)
    ∧ j.getField "slug" = some (Json.str s.slug)
    ∧ j.getField "description" = some (Json.str s.description)
    ∧ j.getField "models" = some (Json.arr s.models) := by
  unfold decodeGetCollectionModels at h
  repeat' split at h
  all_goals cases h
  all_goals simp_all

/-- Inversion for the ListCollectionModels decoder: a successful decode pins
the results field and both cursors to the corresponding JSON fields. -/
theorem decodeList_inv (j : Json) (s : ListCollectionModels)
    (h : decodeListCollectionModels j = Except.ok s) :
    j.getField "results" = some (Json.arr s.results)
    ∧ (∃ jn, j.getField "next" = some jn ∧ jn.asOptString = Except.ok s.next)
    ∧ (∃ jp, j.getField "previous" = some jp ∧ jp.asOptString = Except.ok s.previous) := by
  unfold decodeListCollectionModels at h
  repeat' split at h
  all_goals cases h
  all_goals simp_all

/-- A successful from_str for GetCollectionModels factors through a successful
parse of the body into a JSON value. -/
theorem serdeGet_inv (body : String) (s : GetCollectionModels)
    (h : serdeFromStrGet body = Except.ok s) :
    ∃ j, parseJson body = Except.ok j ∧ decodeGetCollectionModels j = Except.ok s := by
  unfold serdeFromStrGet at h
  split at h
  · cases h
  · exact ⟨_, by assumption, h⟩

/-- A successful from_str for ListCollectionModels factors through a successful
parse of the body into a JSON value. -/
theorem serdeList_inv (body : String) (s : ListCollectionModels)
    (h : serdeFromStrList body = Except.ok s) :
    ∃ j, parseJson body = Except.ok j ∧ decodeListCollectionModels j = Except.ok s := by
  unfold serdeFromStrList at h
  split at h
  · cases h
  · exact ⟨_, by assumption, h⟩

/-
Concrete fixtures, mirroring the mock-server scenarios of the spec and of the
tests at the bottom of collection.rs.
-/

/-- A concrete test Config, as in the collection.rs tests: auth token test and
a mock-server base url. -/
def cfgA : Config :=
  ⟨"http://127.0.0.1:3000", "test", "replicate-rust/0.0.5"⟩

/-- A fresh world holding the test client and an empty request log. -/
def worldA : World :=
  ⟨⟨cfgA⟩, []⟩

/-- The Scenario A body: the collection JSON served for super-resolution. -/
def bodyA : String :=
  "\x7b\"name\":\"Super resolution\",\"slug\":\"super-resolution\",\"description\":\"...\",\"models\":[]\x7d"

/-- A network answering every request with status 200 and the Scenario A
body. -/
def oracle200 : HttpRequest → Except String HttpResponse :=
  fun _ => Except.ok ⟨200, Except.ok bodyA⟩

/-- A network answering every request with status 404 and body not found, as
in Scenario C. -/
def oracle404 : HttpRequest → Except String HttpResponse :=
  fun _ => Except.ok ⟨404, Except.ok "not found"⟩

/-- A network answering status 200 with a body that is not valid JSON. -/
def oracleBad : HttpRequest → Except String HttpResponse :=
  fun _ => Except.ok ⟨200, Except.ok "oops"⟩

/-- A network answering a non-success status whose body text cannot be read. -/
def oracleNoText : HttpRequest → Except String HttpResponse :=
  fun _ => Except.ok ⟨500, Except.error "error decoding response body"⟩

/-
The claim theorems.
-/

/-- Claim C1: for every HTTP response whose status is outside the success
range, Collection::get and Collection::list return the ResponseError variant
carrying the response body text exactly as received, regardless of the body
content; in particular a 404 with body not found makes get of unknown return
a ResponseError carrying not found. -/
theorem claim1_response_error_verbatim :
    (∀ (self : Collection) (slug : String)
        (oracle : HttpRequest → Except String HttpResponse)
        (log : List HttpRequest) (status : Nat) (body : String),
      oracle (Collection.getRequest self slug) = Except.ok ⟨status, Except.ok body⟩ →
      statusIsSuccess status = false →
      (Collection.get slug oracle ⟨self, log⟩).1
        = Except.error (ReplicateError.ResponseError body))
    ∧ (∀ (self : Collection)
        (oracle : HttpRequest → Except String HttpResponse)
        (log : List HttpRequest) (status : Nat) (body : String),
      oracle (Collection.listRequest self) = Except.ok ⟨status, Except.ok body⟩ →
      statusIsSuccess status = false →
      (Collection.list oracle ⟨self, log⟩).1
        = Except.error (ReplicateError.ResponseError body))
    ∧ (Collection.get "unknown" oracle404 worldA).1
        = Except.error (ReplicateError.ResponseError "not found") := by
  refine ⟨?_, ?_, rfl⟩
  · intro self slug oracle log status body hsend hstat
    simp [Collection.get, hsend, hstat]
  · intro self oracle log status body hsend hstat
    simp [Collection.list, hsend, hstat]

/-- Witness for claim C1 at concrete inputs: the 404 with body not found
yields a ResponseError carrying not found, for get and for list. -/
theorem claim1_witness :
    (Collection.get "unknown" oracle404 ⟨⟨cfgA⟩, []⟩).1
      = Except.error (ReplicateError.ResponseError "not found")
    ∧ (Collection.list oracle404 ⟨⟨cfgA⟩, []⟩).1
      = Except.error (ReplicateError.ResponseError "not found") :=
  ⟨claim1_response_error_verbatim.1 ⟨cfgA⟩ "unknown" oracle404 [] 404 "not found" rfl rfl,
   claim1_response_error_verbatim.2.1 ⟨cfgA⟩ oracle404 [] 404 "not found" rfl rfl⟩

/-- Claim C2: for every response with a success status whose body does not
decode to the expected struct, Collection::get and Collection::list return the
SerdeError variant carrying the underlying parse failure.  The embedding is a
total function into an Except value, which is how the absence of a crash is
rendered: every input reaches a typed return value. -/
theorem claim2_decode_error :
    (∀ (self : Collection) (slug : String)
        (oracle : HttpRequest → Except String HttpResponse)
        (log : List HttpRequest) (status : Nat) (body e : String),
      oracle (Collection.getRequest self slug) = Except.ok ⟨status, Except.ok body⟩ →
      statusIsSuccess status = true →
      serdeFromStrGet body = Except.error e →
      (Collection.get slug oracle ⟨self, log⟩).1
        = Except.error (ReplicateError.SerdeError e))
    ∧ (∀ (self : Collection)
        (oracle : HttpRequest → Except String HttpResponse)
        (log : List HttpRequest) (status : Nat) (body e : String),
      oracle (Collection.listRequest self) = Except.ok ⟨status, Except.ok body⟩ →
      statusIsSuccess status = true →
      serdeFromStrList body = Except.error e →
      (Collection.list oracle ⟨self, log⟩).1
        = Except.error (ReplicateError.SerdeError e)) := by
  constructor
  · intro self slug oracle log status body e hsend hstat hdec
    simp [Collection.get, hsend, hstat, hdec]
  · intro self oracle log status body e hsend hstat hdec
    simp [Collection.list, hsend, hstat, hdec]

/-- Witness for claim C2 at concrete inputs: a 200 answer whose body is the
string oops makes get and list return a SerdeError. -/
theorem claim2_witness :
    (Collection.get "x" oracleBad ⟨⟨cfgA⟩, []⟩).1
      = Except.error (ReplicateError.SerdeError "invalid JSON")
    ∧ (Collection.list oracleBad ⟨⟨cfgA⟩, []⟩).1
      = Except.error (ReplicateError.SerdeError "invalid JSON") :=
  ⟨claim2_decode_error.1 ⟨cfgA⟩ "x" oracleBad [] 200 "oops" "invalid JSON" rfl rfl rfl,
   claim2_decode_error.2 ⟨cfgA⟩ oracleBad [] 200 "oops" "invalid JSON" rfl rfl rfl⟩

/-- Claim C5: every single call to Collection::get or Collection::list
performs exactly one round trip: whatever the oracle answers (success,
failure, any status, any body, any cursors), exactly one request is appended
to the transport log, so nothing is retried, no cache is consulted, and list
never follows the next cursor. -/
theorem claim5_single_round_trip :
    ∀ (slug : String) (oracle : HttpRequest → Except String HttpResponse) (w : World),
      (Collection.get slug oracle w).2.log
          = w.log ++ [Collection.getRequest w.coll slug]
      ∧ (Collection.list oracle w).2.log
          = w.log ++ [Collection.listRequest w.coll] := by
  intro slug oracle w
  constructor
  · rw [get_world]
  · rw [list_world]

/-- Claim C8: Collection::get and Collection::list leave the Config held by
the client unchanged: after any call the receiver, and in particular its
base_url, auth and user_agent fields, equal their values before the call. -/
theorem claim8_config_unchanged :
    ∀ (slug : String) (oracle : HttpRequest → Except String HttpResponse) (w : World),
      (Collection.get slug oracle w).2.coll = w.coll
      ∧ (Collection.list oracle w).2.coll = w.coll
      ∧ (Collection.get slug oracle w).2.coll.parent.base_url = w.coll.parent.base_url
      ∧ (Collection.get slug oracle w).2.coll.parent.auth = w.coll.parent.auth
      ∧ (Collection.get slug oracle w).2.coll.parent.user_agent = w.coll.parent.user_agent
      ∧ (Collection.list oracle w).2.coll.parent.base_url = w.coll.parent.base_url
      ∧ (Collection.list oracle w).2.coll.parent.auth = w.coll.parent.auth
      ∧ (Collection.list oracle w).2.coll.parent.user_agent = w.coll.parent.user_agent := by
  intro slug oracle w
  simp [get_world, list_world]

/-- Claim C9: Collection::get performs no validation or URL-encoding and
interpolates the slug verbatim into the collections path: the empty slug
yields the bare path ending in a slash, and a slug containing a slash lands
verbatim in the url, extending the path of its first segment. -/
theorem claim9_slug_verbatim :
    ∀ (self : Collection) (slug : String),
      (Collection.getRequest self slug).url
          = self.parent.base_url ++ "/collections/" ++ slug
      ∧ (Collection.getRequest self "").url = self.parent.base_url ++ "/collections/"
      ∧ (Collection.getRequest self "a/b").url
          = self.parent.base_url ++ "/collections/a/b"
      ∧ (Collection.getRequest self "a/b").url
          = self.parent.base_url ++ "/collections/a" ++ "/b" := by
  intro self slug
  refine ⟨rfl, ?_, ?_, ?_⟩
  · simp [Collection.getRequest]
  · simp [Collection.getRequest, String.append_assoc]
  · simp [Collection.getRequest, String.append_assoc]


/-- Claim C3: for every Config and identifier, Collection::get issues its
request to base_url/collections/id and Collection::list to
base_url/collections (the issued request being the one appended to the
transport log); on success each returns the struct decoded from the JSON
body, on non-success status the ResponseError, and on an unparseable body the
SerdeError. -/
theorem claim3_url_and_contract :
    (∀ (self : Collection) (slug : String),
      (Collection.getRequest self slug).url
          = self.parent.base_url ++ "/collections/" ++ slug)
    ∧ (∀ self : Collection,
      (Collection.listRequest self).url = self.parent.base_url ++ "/collections")
    ∧ (∀ (slug : String) (oracle : HttpRequest → Except String HttpResponse) (w : World),
      (Collection.get slug oracle w).2.log
          = w.log ++ [Collection.getRequest w.coll slug])
    ∧ (∀ (oracle : HttpRequest → Except String HttpResponse) (w : World),
      (Collection.list oracle w).2.log = w.log ++ [Collection.listRequest w.coll])
    ∧ (∀ (self : Collection) (slug : String)
        (oracle : HttpRequest → Except String HttpResponse)
        (log : List HttpRequest) (status : Nat) (body : String),
      oracle (Collection.getRequest self slug) = Except.ok ⟨status, Except.ok body⟩ →
      (statusIsSuccess status = true →
          (∀ strct, serdeFromStrGet body = Except.ok strct →
            (Collection.get slug oracle ⟨self, log⟩).1 = Except.ok strct)
          ∧ (∀ e, serdeFromStrGet body = Except.error e →
            (Collection.get slug oracle ⟨self, log⟩).1
              = Except.error (ReplicateError.SerdeError e)))
      ∧ (statusIsSuccess status = false →
          (Collection.get slug oracle ⟨self, log⟩).1
            = Except.error (ReplicateError.ResponseError body)))
    ∧ (∀ (self : Collection)
        (oracle : HttpRequest → Except String HttpResponse)
        (log : List HttpRequest) (status : Nat) (body : String),
      oracle (Collection.listRequest self) = Except.ok ⟨status, Except.ok body⟩ →
      (statusIsSuccess status = true →
          (∀ strct, serdeFromStrList body = Except.ok strct →
            (Collection.list oracle ⟨self, log⟩).1 = Except.ok strct)
          ∧ (∀ e, serdeFromStrList body = Except.error e →
            (Collection.list oracle ⟨self, log⟩).1
              = Except.error (ReplicateError.SerdeError e)))
      ∧ (statusIsSuccess status = false →
          (Collection.list oracle ⟨self, log⟩).1
            = Except.error (ReplicateError.ResponseError body))) := by
  refine ⟨fun self slug => rfl, fun self => rfl, ?_, ?_, ?_, ?_⟩
  · intro slug oracle w
    rw [get_world]
  · intro oracle w
    rw [list_world]
  · intro self slug oracle log status body hsend
    refine ⟨fun hstat => ⟨?_, ?_⟩, fun hstat => ?_⟩
    · intro strct hdec
      simp [Collection.get, hsend, hstat, hdec]
    · intro e hdec
      simp [Collection.get, hsend, hstat, hdec]
    · simp [Collection.get, hsend, hstat]
  · intro self oracle log status body hsend
    refine ⟨fun hstat => ⟨?_, ?_⟩, fun hstat => ?_⟩
    · intro strct hdec
      simp [Collection.list, hsend, hstat, hdec]
    · intro e hdec
      simp [Collection.list, hsend, hstat, hdec]
    · simp [Collection.list, hsend, hstat]

/-- Witness for claim C3 at concrete inputs: a 200 answer carrying the
Scenario A body makes get return the decoded struct, and a 404 with body not
found makes list return the ResponseError. -/
theorem claim3_witness :
    (Collection.get "super-resolution" oracle200 ⟨⟨cfgA⟩, []⟩).1
        = Except.ok ⟨"Super resolution", "super-resolution", "...", []⟩
    ∧ (Collection.list oracle404 ⟨⟨cfgA⟩, []⟩).1
        = Except.error (ReplicateError.ResponseError "not found") :=
  ⟨((claim3_url_and_contract.2.2.2.2.1 ⟨cfgA⟩ "super-resolution" oracle200 [] 200
        bodyA rfl).1 rfl).1 ⟨"Super resolution", "super-resolution", "...", []⟩ rfl,
   (claim3_url_and_contract.2.2.2.2.2 ⟨cfgA⟩ oracle404 [] 404 "not found" rfl).2 rfl⟩

/-- Claim C4: every request sent by Collection::get and Collection::list (that
is, every request the call appends to the transport log) carries exactly the
header Authorization with value Token followed by the configured auth token,
and the header User-Agent with value exactly the configured user agent. -/
theorem claim4_headers_every_call :
    (∀ (slug : String) (oracle : HttpRequest → Except String HttpResponse)
        (w : World) (r : HttpRequest),
      r ∈ (Collection.get slug oracle w).2.log →
      r ∈ w.log
        ∨ r.headers = [("Authorization", "Token " ++ w.coll.parent.auth),
                       ("User-Agent", w.coll.parent.user_agent)])
    ∧ (∀ (oracle : HttpRequest → Except String HttpResponse)
        (w : World) (r : HttpRequest),
      r ∈ (Collection.list oracle w).2.log →
      r ∈ w.log
        ∨ r.headers = [("Authorization", "Token " ++ w.coll.parent.auth),
                       ("User-Agent", w.coll.parent.user_agent)])
    ∧ (∀ (self : Collection) (slug : String),
      (Collection.getRequest self slug).headers
          = [("Authorization", "Token " ++ self.parent.auth),
             ("User-Agent", self.parent.user_agent)])
    ∧ (∀ self : Collection,
      (Collection.listRequest self).headers
          = [("Authorization", "Token " ++ self.parent.auth),
             ("User-Agent", self.parent.user_agent)]) := by
  refine ⟨?_, ?_, fun self slug => rfl, fun self => rfl⟩
  · intro slug oracle w r hmem
    rw [get_world] at hmem
    rcases List.mem_append.1 hmem with h | h
    · exact Or.inl h
    · right
      rw [List.mem_singleton.1 h]
      rfl
  · intro oracle w r hmem
    rw [list_world] at hmem
    rcases List.mem_append.1 hmem with h | h
    · exact Or.inl h
    · right
      rw [List.mem_singleton.1 h]
      rfl

/-- Witness for claim C4 at a concrete input: the one request logged by a get
call on the test client carries exactly the two configured headers. -/
theorem claim4_witness :
    Collection.getRequest worldA.coll "super-resolution"
        ∈ worldA.log
      ∨ (Collection.getRequest worldA.coll "super-resolution").headers
        = [("Authorization", "Token " ++ worldA.coll.parent.auth),
           ("User-Agent", worldA.coll.parent.user_agent)] :=
  claim4_headers_every_call.1 "super-resolution" oracle200 worldA
    (Collection.getRequest worldA.coll "super-resolution")
    (by rw [get_world]; simp [worldA])

/-- Claim C6: when the network answers status 200 with the Scenario A body for
super-resolution, Collection::get of super-resolution returns Ok of a struct
whose name field equals Super resolution. -/
theorem claim6_scenario_a :
    ∃ s, (Collection.get "super-resolution" oracle200 worldA).1 = Except.ok s
      ∧ s.name = "Super resolution" :=
  ⟨⟨"Super resolution", "super-resolution", "...", []⟩, rfl, rfl⟩

/-- Claim C7: each call of Collection::get and Collection::list returns either
a typed ReplicateError or a struct fully populated from the JSON body: every
Ok result comes from a successfully read success response whose parsed JSON
object pins every field of the returned struct, so no field is silently
defaulted. -/
theorem claim7_fully_populated_or_error :
    ∀ (slug : String) (oracle : HttpRequest → Except String HttpResponse) (w : World),
      ((∃ s, (Collection.get slug oracle w).1 = Except.ok s)
        ∨ (∃ e, (Collection.get slug oracle w).1 = Except.error e))
      ∧ (∀ s, (Collection.get slug oracle w).1 = Except.ok s →
          ∃ status body j,
            oracle (Collection.getRequest w.coll slug)
                = Except.ok ⟨status, Except.ok body⟩
              ∧ statusIsSuccess status = true
              ∧ parseJson body = Except.ok j
              ∧ j.getField "name" = some (Json.str s.name)
              ∧ j.getField "slug" = some (Json.str s.slug)
              ∧ j.getField "description" = some (Json.str s.description)
              ∧ j.getField "models" = some (Json.arr s.models))
      ∧ ((∃ s, (Collection.list oracle w).1 = Except.ok s)
        ∨ (∃ e, (Collection.list oracle w).1 = Except.error e))
      ∧ (∀ s, (Collection.list oracle w).1 = Except.ok s →
          ∃ status body j jn jp,
            oracle (Collection.listRequest w.coll)
                = Except.ok ⟨status, Except.ok body⟩
              ∧ statusIsSuccess status = true
              ∧ parseJson body = Except.ok j
              ∧ j.getField "results" = some (Json.arr s.results)
              ∧ j.getField "next" = some jn
              ∧ jn.asOptString = Except.ok s.next
              ∧ j.getField "previous" = some jp
              ∧ jp.asOptString = Except.ok s.previous) := by
  intro slug oracle w
  refine ⟨?_, ?_, ?_, ?_⟩
  · cases h : (Collection.get slug oracle w).1 with
    | error e => exact Or.inr ⟨e, rfl⟩
    | ok s => exact Or.inl ⟨s, rfl⟩
  · intro s hs
    unfold Collection.get at hs
    dsimp only at hs
    split at hs
    · simp at hs
    · rename_i response heq1
      split at hs
      · split at hs <;> simp at hs
      · rename_i hif
        split at hs
        · simp at hs
        · rename_i response_string heq2
          split at hs
          · simp at hs
          · rename_i strct heq3
            cases hs
            obtain ⟨st, txt⟩ := response
            dsimp only at heq2 hif
            subst heq2
            obtain ⟨j, hj, hdec⟩ := serdeGet_inv _ _ heq3
            obtain ⟨h1, h2, h3, h4⟩ := decodeGet_inv _ _ hdec
            exact ⟨st, _, j, heq1, by simpa using hif, hj, h1, h2, h3, h4⟩
  · cases h : (Collection.list oracle w).1 with
    | error e => exact Or.inr ⟨e, rfl⟩
    | ok s => exact Or.inl ⟨s, rfl⟩
  · intro s hs
    unfold Collection.list at hs
    dsimp only at hs
    split at hs
    · simp at hs
    · rename_i response heq1
      split at hs
      · split at hs <;> simp at hs
      · rename_i hif
        split at hs
        · simp at hs
        · rename_i response_string heq2
          split at hs
          · simp at hs
          · rename_i strct heq3
            cases hs
            obtain ⟨st, txt⟩ := response
            dsimp only at heq2 hif
            subst heq2
            obtain ⟨j, hj, hdec⟩ := serdeList_inv _ _ heq3
            obtain ⟨h1, ⟨jn, hjn1, hjn2⟩, ⟨jp, hjp1, hjp2⟩⟩ := decodeList_inv _ _ hdec
            exact ⟨st, _, j, jn, jp, heq1, by simpa using hif, hj, h1, hjn1, hjn2,
              hjp1, hjp2⟩

/-- Witness for claim C7 at a concrete input: the Ok result of the Scenario A
call is pinned field by field to the parsed JSON object of the body. -/
theorem claim7_witness :
    ∃ status body j,
      oracle200 (Collection.getRequest worldA.coll "super-resolution")
          = Except.ok ⟨status, Except.ok body⟩
        ∧ statusIsSuccess status = true
        ∧ parseJson body = Except.ok j
        ∧ j.getField "name" = some (Json.str "Super resolution")
        ∧ j.getField "slug" = some (Json.str "super-resolution")
        ∧ j.getField "description" = some (Json.str "...")
        ∧ j.getField "models" = some (Json.arr []) :=
  (claim7_fully_populated_or_error "super-resolution" oracle200 worldA).2.1
    ⟨"Super resolution", "super-resolution", "...", []⟩ rfl

/-- Claim C10: when the HTTP status is outside the success range but reading
the response body text itself fails, Collection::get and Collection::list
return the underlying read failure as the transport error variant, and not a
ResponseError. -/
theorem claim10_body_read_failure :
    (∀ (self : Collection) (slug : String)
        (oracle : HttpRequest → Except String HttpResponse)
        (log : List HttpRequest) (status : Nat) (e : String),
      oracle (Collection.getRequest self slug) = Except.ok ⟨status, Except.error e⟩ →
      statusIsSuccess status = false →
      (Collection.get slug oracle ⟨self, log⟩).1
          = Except.error (ReplicateError.ReqwestError e)
        ∧ ∀ b, (Collection.get slug oracle ⟨self, log⟩).1
          ≠ Except.error (ReplicateError.ResponseError b))
    ∧ (∀ (self : Collection)
        (oracle : HttpRequest → Except String HttpResponse)
        (log : List HttpRequest) (status : Nat) (e : String),
      oracle (Collection.listRequest self) = Except.ok ⟨status, Except.error e⟩ →
      statusIsSuccess status = false →
      (Collection.list oracle ⟨self, log⟩).1
          = Except.error (ReplicateError.ReqwestError e)
        ∧ ∀ b, (Collection.list oracle ⟨self, log⟩).1
          ≠ Except.error (ReplicateError.ResponseError b)) := by
  constructor
  · intro self slug oracle log status e hsend hstat
    constructor
    · simp [Collection.get, hsend, hstat]
    · intro b
      simp [Collection.get, hsend, hstat]
  · intro self oracle log status e hsend hstat
    constructor
    · simp [Collection.list, hsend, hstat]
    · intro b
      simp [Collection.list, hsend, hstat]

/-- Witness for claim C10 at a concrete input: a 500 answer whose body cannot
be read makes get and list return the transport error with the read failure
message. -/
theorem claim10_witness :
    ((Collection.get "x" oracleNoText ⟨⟨cfgA⟩, []⟩).1
        = Except.error (ReplicateError.ReqwestError "error decoding response body"))
    ∧ ((Collection.list oracleNoText ⟨⟨cfgA⟩, []⟩).1
        = Except.error (ReplicateError.ReqwestError "error decoding response body")) :=
  ⟨(claim10_body_read_failure.1 ⟨cfgA⟩ "x" oracleNoText [] 500
      "error decoding response body" rfl rfl).1,
   (claim10_body_read_failure.2 ⟨cfgA⟩ oracleNoText [] 500
      "error decoding response body" rfl rfl).1⟩

end Replicate
